import Mathlib

/-!
Verification of the genre/engagement analytics client (`src/app/static/app.js`)
against its natural-language specification.

The JavaScript is shallowly embedded: JS values that may be `null`,
`undefined` or a string are an inductive type; JS numbers are rationals
extended with the non-finite cases `NaN`, `Infinity`, `-Infinity`;
JS objects built by `Object.fromEntries` are association lists; fallible
code returns `Except`.  Every definition is translated from the source
file, except where a doc comment says `Modelled from the spec:` (code of
the repository that is not under `src/`).
-/

/-- A JavaScript value that the status helpers may receive: `null`,
`undefined`, or a string. -/
inductive JSVal where
  | jsNull
  | jsUndefined
  | jsStr (s : String)
deriving DecidableEq, Repr

/-- `String(value || "")` from the source: a falsy value (`null`,
`undefined`, the empty string) becomes `""`, a truthy string stays
itself. -/
def jsStringOrEmpty : JSVal → String
  | .jsNull => ""
  | .jsUndefined => ""
  | .jsStr s => s

/-- One entry of `STATUS_TAXONOMY` (src/app/static/app.js lines 25-75). -/
structure StatusDef where
  value : String
  label : String
  requiresPurchaseDate : Bool
  group : String
  emptyCopy : String
deriving DecidableEq, Repr

/-- `STATUS_TAXONOMY` (src/app/static/app.js lines 25-75), verbatim. -/
def STATUS_TAXONOMY : List StatusDef :=
  [ { value := "backlog", label := "Backlog", requiresPurchaseDate := true,
      group := "owned", emptyCopy := "No backlog games yet." },
    { value := "playing", label := "Playing", requiresPurchaseDate := true,
      group := "owned", emptyCopy := "No games are currently marked as playing." },
    { value := "occasional", label := "Occasional", requiresPurchaseDate := true,
      group := "owned", emptyCopy := "No occasional rotation titles yet." },
    { value := "story_clear", label := "Story clear", requiresPurchaseDate := true,
      group := "owned", emptyCopy := "No story clears logged yet." },
    { value := "full_clear", label := "Full clear", requiresPurchaseDate := true,
      group := "owned", emptyCopy := "No full clears recorded yet." },
    { value := "dropped", label := "Dropped", requiresPurchaseDate := true,
      group := "owned", emptyCopy := "No dropped games yet." },
    { value := "wishlist", label := "Wishlist", requiresPurchaseDate := false,
      group := "wishlist", emptyCopy := "No wishlist games yet." } ]

/-- Own-property part of `STATUS_LOOKUP` (line 77): the entries that
`Object.fromEntries(STATUS_TAXONOMY.map((entry) => [entry.value, entry]))`
itself defines, looked up by `value` (the `value` fields are pairwise
distinct, so first match and last-write-wins agree).  Bracket indexing on
the plain object additionally reaches `Object.prototype`'s inherited
members, which `STATUS_LOOKUP_JS` below models in full. -/
def STATUS_LOOKUP (key : String) : Option StatusDef :=
  STATUS_TAXONOMY.find? (fun entry => entry.value = key)

/-- `OWNED_STATUS_SET` (lines 80-84): the values of the taxonomy entries
with `requiresPurchaseDate` set. -/
def OWNED_STATUS_SET : List String :=
  (STATUS_TAXONOMY.filter (fun entry => entry.requiresPurchaseDate)).map
    (fun entry => entry.value)

/-- `DEFAULT_STATUS` (line 85). -/
def DEFAULT_STATUS : String := "backlog"

/-- JS `toLowerCase()`, embedded character-wise with `Char.toLower`
(the taxonomy keys and cache keys are ASCII). -/
def jsToLowerCase (s : String) : String :=
  ⟨s.data.map Char.toLower⟩

/-- Status-record projection of `getStatusDefinition` (lines 87-89):
`STATUS_LOOKUP[String(value || "").toLowerCase()] || null`, restricted to
the own (taxonomy) properties.  The program's plain-object indexing can
also hit truthy members inherited from `Object.prototype`; the full
behaviour is `getStatusDefinitionJS` below, and
`normalizedStatus_agrees_with_prototype_chain` proves that for the
grouping normalisation `?.value || DEFAULT_STATUS` the two agree on every
input (inherited hits have an undefined `.value`). -/
def getStatusDefinition (value : JSVal) : Option StatusDef :=
  STATUS_LOOKUP (jsToLowerCase (jsStringOrEmpty value))

/-- Own property names of `Object.prototype` (ECMA-262): bracket indexing
on the plain object `STATUS_LOOKUP` falls back to these inherited members
on a key miss.  Their values are all truthy — built-in functions, and the
`__proto__` accessor which yields `Object.prototype` itself. -/
def OBJECT_PROTOTYPE_KEYS : List String :=
  ["constructor", "hasOwnProperty", "isPrototypeOf", "propertyIsEnumerable",
   "toLocaleString", "toString", "valueOf", "__defineGetter__",
   "__defineSetter__", "__lookupGetter__", "__lookupSetter__", "__proto__"]

/-- What `STATUS_LOOKUP[key] || null` can produce: a taxonomy metadata
record, a truthy member inherited from `Object.prototype` (recorded by its
property name), or `null` (`undefined` is falsy, so `|| null` turns a true
miss into `null`). -/
inductive StatusLookupResult where
  | defn (d : StatusDef)
  | inheritedObject (name : String)
  | jsNull
deriving DecidableEq, Repr

/-- `getStatusDefinition` (lines 87-89) with the plain object's prototype
chain modelled: the lowercased key first matches the own taxonomy entries,
then falls back to `Object.prototype`'s inherited members (all truthy, so
`|| null` passes them through), and only a full miss gives `null`. -/
def getStatusDefinitionJS (value : JSVal) : StatusLookupResult :=
  let key := jsToLowerCase (jsStringOrEmpty value)
  match STATUS_TAXONOMY.find? (fun entry => entry.value = key) with
  | some d => .defn d
  | none =>
    if key ∈ OBJECT_PROTOTYPE_KEYS then .inheritedObject key
    else .jsNull

/-- The `?.value` read that the grouping code performs on a lookup result:
a taxonomy record exposes its `value`; an inherited `Object.prototype`
member (a built-in function, or `Object.prototype` itself) has no `value`
property, so the optional chain yields `undefined`; so does `null`. -/
def statusLookupResultValue : StatusLookupResult → Option String
  | .defn d => some d.value
  | .inheritedObject _ => none
  | .jsNull => none

/-- `statusRequiresPurchase` (lines 96-98):
`OWNED_STATUS_SET.has(String(value || "").toLowerCase())`. -/
def statusRequiresPurchase (value : JSVal) : Bool :=
  OWNED_STATUS_SET.contains (jsToLowerCase (jsStringOrEmpty value))

/-- The status values whose definition requires a purchase date, as the
spec enumerates them (the "owned" group). -/
def ownedStatusValues : List String :=
  ["backlog", "playing", "occasional", "story_clear", "full_clear", "dropped"]

/-- Counterexample to C1 as stated: at the concrete inputs
`"constructor"` and `"__proto__"` — neither a taxonomy status — the
lowercased key hits a truthy member inherited from `Object.prototype`, so
`getStatusDefinition` returns that object, not `null`. -/
theorem c1_counterexample :
    getStatusDefinitionJS (.jsStr "constructor") = .inheritedObject "constructor"
    ∧ getStatusDefinitionJS (.jsStr "__proto__") = .inheritedObject "__proto__"
    ∧ getStatusDefinitionJS (.jsStr "constructor") ≠ .jsNull
    ∧ getStatusDefinitionJS (.jsStr "__proto__") ≠ .jsNull := by
  refine ⟨by decide, by decide, by decide, by decide⟩

/-- C1 as amended: `getStatusDefinition` is case-insensitive (it keys on
the lowercased input).  When the lowercased value equals a declared
taxonomy status it returns that entry's metadata record; when it is
neither a taxonomy status nor an own property name of `Object.prototype`
it returns `null` rather than throwing, and `null`, `undefined` and `""`
inputs also return `null`; but when it is an inherited
`Object.prototype` name (the all-lowercase ones being `"constructor"` and
`"__proto__"`) the plain-object lookup returns that truthy inherited
member instead of `null`. -/
theorem c1_getStatusDefinition_prototype_chain :
    (∀ s : String, ∀ d ∈ STATUS_TAXONOMY,
        jsToLowerCase s = d.value → getStatusDefinitionJS (.jsStr s) = .defn d)
    ∧ (∀ s : String, (∀ d ∈ STATUS_TAXONOMY, jsToLowerCase s ≠ d.value) →
        jsToLowerCase s ∉ OBJECT_PROTOTYPE_KEYS →
        getStatusDefinitionJS (.jsStr s) = .jsNull)
    ∧ (∀ s : String, (∀ d ∈ STATUS_TAXONOMY, jsToLowerCase s ≠ d.value) →
        jsToLowerCase s ∈ OBJECT_PROTOTYPE_KEYS →
        getStatusDefinitionJS (.jsStr s) = .inheritedObject (jsToLowerCase s))
    ∧ getStatusDefinitionJS .jsNull = .jsNull
    ∧ getStatusDefinitionJS .jsUndefined = .jsNull
    ∧ getStatusDefinitionJS (.jsStr "") = .jsNull := by
  have hfind : ∀ s : String, (∀ d ∈ STATUS_TAXONOMY, jsToLowerCase s ≠ d.value) →
      STATUS_TAXONOMY.find? (fun entry => entry.value = jsToLowerCase s) =
        none := by
    intro s hmiss
    refine List.find?_eq_none.mpr ?_
    intro d hd
    simpa using (hmiss d hd).symm
  refine ⟨?_, ?_, ?_, by decide, by decide, by decide⟩
  · intro s d hd hkey
    simp only [getStatusDefinitionJS, jsStringOrEmpty, hkey]
    fin_cases hd <;> rfl
  · intro s hmiss hproto
    simp only [getStatusDefinitionJS, jsStringOrEmpty]
    rw [hfind s hmiss, if_neg hproto]
  · intro s hmiss hproto
    simp only [getStatusDefinitionJS, jsStringOrEmpty]
    rw [hfind s hmiss, if_pos hproto]

/-- Witness for the amended C1 at concrete inputs: the mixed-case
`"Backlog"` resolves to the backlog record, the unknown `"abandoned"`
fails closed to `null`, and the mixed-case `"Constructor"` hits the
inherited `Object.prototype` member. -/
theorem c1_witness :
    getStatusDefinitionJS (.jsStr "Backlog") =
      .defn { value := "backlog", label := "Backlog", requiresPurchaseDate := true,
              group := "owned", emptyCopy := "No backlog games yet." }
    ∧ getStatusDefinitionJS (.jsStr "abandoned") = .jsNull
    ∧ getStatusDefinitionJS (.jsStr "Constructor") = .inheritedObject "constructor" := by
  refine ⟨?_, ?_, ?_⟩
  · exact c1_getStatusDefinition_prototype_chain.1 "Backlog"
      { value := "backlog", label := "Backlog", requiresPurchaseDate := true,
        group := "owned", emptyCopy := "No backlog games yet." }
      (by simp [STATUS_TAXONOMY]) (by decide)
  · exact c1_getStatusDefinition_prototype_chain.2.1 "abandoned"
      (by decide) (by decide)
  · have h := c1_getStatusDefinition_prototype_chain.2.2.1 "Constructor"
      (by decide) (by decide)
    have e : jsToLowerCase "Constructor" = "constructor" := by decide
    rw [e] at h
    exact h

/-- C4: the taxonomy is a closed set of exactly the seven declared
statuses; `group = "owned"` holds exactly when `requiresPurchaseDate` is
true; `wishlist` is the only entry in group `"wishlist"` and the only
entry not requiring a purchase date. -/
theorem c4_taxonomy_closed_and_consistent :
    STATUS_TAXONOMY.map StatusDef.value =
      ["backlog", "playing", "occasional", "story_clear", "full_clear",
       "dropped", "wishlist"]
    ∧ (∀ d ∈ STATUS_TAXONOMY, (d.group = "owned" ↔ d.requiresPurchaseDate = true))
    ∧ (∀ d ∈ STATUS_TAXONOMY, (d.group = "wishlist" ↔ d.value = "wishlist"))
    ∧ (∀ d ∈ STATUS_TAXONOMY, (d.requiresPurchaseDate = false ↔ d.value = "wishlist")) := by
  refine ⟨rfl, ?_, ?_, ?_⟩ <;> (intro d hd; fin_cases hd <;> simp)

/-- C3: `statusRequiresPurchase` returns `true` exactly when the lowercased
input is one of the six owned-group statuses; it returns `false` for
`wishlist` in any letter case and for unknown, `null`, `undefined` and
empty inputs. -/
theorem c3_statusRequiresPurchase_owned_only :
    (∀ s : String,
        statusRequiresPurchase (.jsStr s) = true ↔ jsToLowerCase s ∈ ownedStatusValues)
    ∧ (∀ s : String, jsToLowerCase s = "wishlist" →
        statusRequiresPurchase (.jsStr s) = false)
    ∧ statusRequiresPurchase .jsNull = false
    ∧ statusRequiresPurchase .jsUndefined = false
    ∧ statusRequiresPurchase (.jsStr "") = false := by
  have hset : OWNED_STATUS_SET = ownedStatusValues := by rfl
  refine ⟨?_, ?_, rfl, rfl, rfl⟩
  · intro s
    simp [statusRequiresPurchase, hset, jsStringOrEmpty]
  · intro s hs
    simp [statusRequiresPurchase, hset, jsStringOrEmpty, hs, ownedStatusValues]

/-- Witness for C3 at concrete inputs: `"PLAYING"` requires a purchase
date, `"WishList"` and `"unknown"` do not. -/
theorem c3_witness :
    statusRequiresPurchase (.jsStr "PLAYING") = true
    ∧ statusRequiresPurchase (.jsStr "WishList") = false
    ∧ statusRequiresPurchase (.jsStr "unknown") = false := by
  refine ⟨?_, ?_, ?_⟩
  · exact (c3_statusRequiresPurchase_owned_only.1 "PLAYING").mpr (by decide)
  · exact c3_statusRequiresPurchase_owned_only.2.1 "WishList" (by decide)
  · have h := (c3_statusRequiresPurchase_owned_only.1 "unknown").not
    simp only [Bool.not_eq_true] at h
    exact h.mpr (by decide)

/-- A game as consumed by the library page (`renderLists`): only the
fields that grouping touches are modelled; `status` may be any JS value. -/
structure Game where
  title : String
  status : JSVal
  eloRating : Int
deriving DecidableEq, Repr

/-- The normalised grouping key of `renderLists` (line 2613):
`getStatusDefinition(game.status)?.value || DEFAULT_STATUS` (every
taxonomy `value` is a nonempty, hence truthy, string). -/
def normalizedStatus (status : JSVal) : String :=
  ((getStatusDefinition status).map StatusDef.value).getD DEFAULT_STATUS

/-- The `grouped` map of `renderLists` (lines 2611-2618): games are pushed
onto the list at their normalised status key, in input order. -/
def groupedGames (games : List Game) (key : String) : List Game :=
  games.filter (fun game => normalizedStatus game.status = key)

theorem normalizedStatus_agrees_with_prototype_chain (v : JSVal) :
    (statusLookupResultValue (getStatusDefinitionJS v)).getD DEFAULT_STATUS =
      normalizedStatus v := by
  rcases hfind : STATUS_TAXONOMY.find?
      (fun entry => entry.value = jsToLowerCase (jsStringOrEmpty v)) with _ | d
  · simp only [getStatusDefinitionJS, normalizedStatus, getStatusDefinition,
      STATUS_LOOKUP, hfind]
    by_cases hproto : jsToLowerCase (jsStringOrEmpty v) ∈ OBJECT_PROTOTYPE_KEYS
    · rw [if_pos hproto]
      rfl
    · rw [if_neg hproto]
      rfl
  · simp only [getStatusDefinitionJS, normalizedStatus, getStatusDefinition,
      STATUS_LOOKUP, hfind]
    rfl

/-- C2: grouping on the library page is total: a game whose status does
not resolve to a registry definition lands in the default bucket
`"backlog"`, and a game with a resolvable status lands in the bucket of
the resolved status value. -/
theorem c2_unknown_status_coerced_to_default :
    (∀ (games : List Game), ∀ game ∈ games,
        getStatusDefinition game.status = none →
          game ∈ groupedGames games DEFAULT_STATUS)
    ∧ (∀ (games : List Game), ∀ game ∈ games, ∀ d : StatusDef,
        getStatusDefinition game.status = some d →
          game ∈ groupedGames games d.value)
    ∧ (∀ (games : List Game), ∀ game ∈ games,
        game ∈ groupedGames games (normalizedStatus game.status)) := by
  refine ⟨?_, ?_, ?_⟩
  · intro games game hmem hnone
    simpa [groupedGames, normalizedStatus, hnone] using hmem
  · intro games game hmem d hsome
    simpa [groupedGames, normalizedStatus, hsome] using hmem
  · intro games game hmem
    simpa [groupedGames] using hmem

/-- Witness for C2 at a concrete input: a game with the unknown status
`"paused"` is grouped under `"backlog"`, and one with status `"Wishlist"`
under `"wishlist"`. -/
theorem c2_witness :
    ({ title := "A", status := .jsStr "paused", eloRating := 1200 } : Game) ∈
      groupedGames
        [{ title := "A", status := .jsStr "paused", eloRating := 1200 },
         { title := "B", status := .jsStr "Wishlist", eloRating := 1400 }]
        DEFAULT_STATUS
    ∧ ({ title := "B", status := .jsStr "Wishlist", eloRating := 1400 } : Game) ∈
      groupedGames
        [{ title := "A", status := .jsStr "paused", eloRating := 1200 },
         { title := "B", status := .jsStr "Wishlist", eloRating := 1400 }]
        "wishlist" := by
  constructor
  · exact c2_unknown_status_coerced_to_default.1 _
      { title := "A", status := .jsStr "paused", eloRating := 1200 }
      (by decide) (by decide)
  · exact c2_unknown_status_coerced_to_default.2.1 _
      { title := "B", status := .jsStr "Wishlist", eloRating := 1400 }
      (by decide)
      { value := "wishlist", label := "Wishlist", requiresPurchaseDate := false,
        group := "wishlist", emptyCopy := "No wishlist games yet." }
      (by decide)

/-- `ENGAGEMENT_PALETTE` (src/app/static/app.js lines 12-21), verbatim. -/
def ENGAGEMENT_PALETTE : List String :=
  ["#60a5fa", "#f472b6", "#facc15", "#34d399", "#a855f7", "#f97316",
   "#38bdf8", "#f87171"]

/-- `ENGAGEMENT_OTHER_COLOR` (line 23). -/
def ENGAGEMENT_OTHER_COLOR : String := "rgba(148, 163, 184, 0.55)"

/-- The mutable color-cache slice of the global `state` object (lines 1-10):
the `Map` keeps insertion order, so it is an association list. -/
structure EngagementState where
  engagementColorMap : List (String × String)
  engagementPaletteIndex : Nat
deriving DecidableEq, Repr

/-- `getEngagementColor` (lines 475-490), in explicit state-passing style:
a falsy key returns the designated other color and leaves the cache alone;
otherwise the key is lowercased, a cache hit returns the cached color, and
a miss assigns `ENGAGEMENT_PALETTE[paletteIndex % length]`, appends it to
the cache and increments the index. -/
def getEngagementColor (st : EngagementState) (key : JSVal) :
    String × EngagementState :=
  match key with
  | .jsNull => (ENGAGEMENT_OTHER_COLOR, st)
  | .jsUndefined => (ENGAGEMENT_OTHER_COLOR, st)
  | .jsStr s =>
    if s = "" then (ENGAGEMENT_OTHER_COLOR, st)
    else
      let normalized := jsToLowerCase s
      match st.engagementColorMap.lookup normalized with
      | some c => (c, st)
      | none =>
        let c := ENGAGEMENT_PALETTE.getD
          (st.engagementPaletteIndex % ENGAGEMENT_PALETTE.length) ""
        (c, { engagementColorMap := st.engagementColorMap ++ [(normalized, c)],
              engagementPaletteIndex := st.engagementPaletteIndex + 1 })

theorem lookup_append_left {k : String} {c : String}
    {l₁ l₂ : List (String × String)} (h : l₁.lookup k = some c) :
    (l₁ ++ l₂).lookup k = some c := by
  induction l₁ with
  | nil => simp [List.lookup] at h
  | cons p rest ih =>
    rw [List.cons_append]
    rw [List.lookup] at h ⊢
    by_cases hk : (k == p.1) = true
    · simpa [hk] using h
    · simp only [hk] at h ⊢
      · exact ih h

theorem lookup_append_right {k : String}
    {l₁ l₂ : List (String × String)} (h : l₁.lookup k = none) :
    (l₁ ++ l₂).lookup k = l₂.lookup k := by
  induction l₁ with
  | nil => simp
  | cons p rest ih =>
    rw [List.cons_append]
    rw [List.lookup] at h ⊢
    by_cases hk : (k == p.1) = true
    · simp [hk] at h
    · simp only [hk] at h ⊢
      · exact ih h

theorem getEngagementColor_falsy (st : EngagementState) :
    getEngagementColor st .jsNull = (ENGAGEMENT_OTHER_COLOR, st)
    ∧ getEngagementColor st .jsUndefined = (ENGAGEMENT_OTHER_COLOR, st)
    ∧ getEngagementColor st (.jsStr "") = (ENGAGEMENT_OTHER_COLOR, st) :=
  ⟨rfl, rfl, rfl⟩

theorem getEngagementColor_hit (st : EngagementState) (s c : String)
    (hs : s ≠ "")
    (hc : st.engagementColorMap.lookup (jsToLowerCase s) = some c) :
    getEngagementColor st (.jsStr s) = (c, st) := by
  simp only [getEngagementColor, if_neg hs, hc]

theorem getEngagementColor_miss (st : EngagementState) (s : String)
    (hs : s ≠ "")
    (hc : st.engagementColorMap.lookup (jsToLowerCase s) = none) :
    getEngagementColor st (.jsStr s) =
      (ENGAGEMENT_PALETTE.getD
         (st.engagementPaletteIndex % ENGAGEMENT_PALETTE.length) "",
       { engagementColorMap := st.engagementColorMap ++
           [(jsToLowerCase s,
             ENGAGEMENT_PALETTE.getD
               (st.engagementPaletteIndex % ENGAGEMENT_PALETTE.length) "")],
         engagementPaletteIndex := st.engagementPaletteIndex + 1 }) := by
  simp only [getEngagementColor, if_neg hs, hc]

/-- C6: the color cache is a stable map.  A falsy key (`null`, `undefined`,
`""`) always returns the designated other color and consumes no palette
slot; a cached key returns its cached color unchanged; a fresh key is
assigned `ENGAGEMENT_PALETTE[index % 8]` — colors cycle through the fixed
palette in order of first appearance — and is appended to the cache; and a
repeated call with the same key (case-insensitively) returns the color the
first call produced, with no further state change. -/
theorem c6_engagement_color_stable_map :
    (∀ st : EngagementState,
        getEngagementColor st .jsNull = (ENGAGEMENT_OTHER_COLOR, st)
        ∧ getEngagementColor st .jsUndefined = (ENGAGEMENT_OTHER_COLOR, st)
        ∧ getEngagementColor st (.jsStr "") = (ENGAGEMENT_OTHER_COLOR, st))
    ∧ (∀ (st : EngagementState) (s c : String), s ≠ "" →
        st.engagementColorMap.lookup (jsToLowerCase s) = some c →
          getEngagementColor st (.jsStr s) = (c, st))
    ∧ (∀ (st : EngagementState) (s : String), s ≠ "" →
        st.engagementColorMap.lookup (jsToLowerCase s) = none →
          getEngagementColor st (.jsStr s) =
            (ENGAGEMENT_PALETTE.getD
               (st.engagementPaletteIndex % ENGAGEMENT_PALETTE.length) "",
             { engagementColorMap := st.engagementColorMap ++
                 [(jsToLowerCase s,
                   ENGAGEMENT_PALETTE.getD
                     (st.engagementPaletteIndex % ENGAGEMENT_PALETTE.length) "")],
               engagementPaletteIndex := st.engagementPaletteIndex + 1 }))
    ∧ (∀ (st : EngagementState) (s₁ s₂ : String), s₁ ≠ "" → s₂ ≠ "" →
        jsToLowerCase s₁ = jsToLowerCase s₂ →
          getEngagementColor (getEngagementColor st (.jsStr s₁)).2 (.jsStr s₂) =
            ((getEngagementColor st (.jsStr s₁)).1,
             (getEngagementColor st (.jsStr s₁)).2)) := by
  refine ⟨getEngagementColor_falsy, getEngagementColor_hit, getEngagementColor_miss, ?_⟩
  intro st s₁ s₂ hs₁ hs₂ hnorm
  rcases hlook : st.engagementColorMap.lookup (jsToLowerCase s₁) with _ | c
  · rw [getEngagementColor_miss st s₁ hs₁ hlook]
    refine getEngagementColor_hit _ s₂ _ hs₂ ?_
    have hlook₂ : st.engagementColorMap.lookup (jsToLowerCase s₂) = none := by
      rw [← hnorm]; exact hlook
    show (st.engagementColorMap ++ _).lookup (jsToLowerCase s₂) = _
    rw [lookup_append_right hlook₂, ← hnorm]
    simp [List.lookup]
  · rw [getEngagementColor_hit st s₁ c hs₁ hlook]
    refine getEngagementColor_hit st s₂ c hs₂ ?_
    rw [← hnorm]; exact hlook

/-- Witness for C6 at concrete inputs: from the empty cache, `"Hades"`
gets the first palette color, the differently-cased `"HADES"` then reuses
it without advancing the index, and a `null` key gets the other color. -/
theorem c6_witness :
    getEngagementColor { engagementColorMap := [], engagementPaletteIndex := 0 }
        (.jsStr "Hades") =
      ("#60a5fa", { engagementColorMap := [("hades", "#60a5fa")],
                    engagementPaletteIndex := 1 })
    ∧ getEngagementColor
        { engagementColorMap := [("hades", "#60a5fa")], engagementPaletteIndex := 1 }
        (.jsStr "HADES") =
      ("#60a5fa", { engagementColorMap := [("hades", "#60a5fa")],
                    engagementPaletteIndex := 1 })
    ∧ getEngagementColor
        { engagementColorMap := [], engagementPaletteIndex := 0 } .jsNull =
      (ENGAGEMENT_OTHER_COLOR, { engagementColorMap := [], engagementPaletteIndex := 0 }) := by
  refine ⟨?_, ?_, ?_⟩
  · have h := c6_engagement_color_stable_map.2.2.1
      { engagementColorMap := [], engagementPaletteIndex := 0 } "Hades"
      (by decide) (by decide)
    simpa using h
  · have h := c6_engagement_color_stable_map.2.1
      { engagementColorMap := [("hades", "#60a5fa")], engagementPaletteIndex := 1 }
      "HADES" "#60a5fa" (by decide) (by decide)
    simpa using h
  · exact (c6_engagement_color_stable_map.1
      { engagementColorMap := [], engagementPaletteIndex := 0 }).1

/-- A JavaScript number: a finite rational, or one of the non-finite
values `NaN`, `Infinity`, `-Infinity` (`Number.isFinite` accepts only the
first). -/
inductive JSNum where
  | finite (q : ℚ)
  | nan
  | inf
  | neginf
deriving DecidableEq, Repr

/-- `Number.isFinite`. -/
def jsIsFinite : JSNum → Bool
  | .finite _ => true
  | _ => false

/-- `Number.isFinite` lifted to a possibly-missing field
(`Number.isFinite(undefined)` is `false`). -/
def jsOptIsFinite : Option JSNum → Bool
  | some (.finite _) => true
  | _ => false

/-- The hype/enjoyment gap paragraph a genre entry gets
(`renderGenreSentimentComparison`, lines 1360-1381), reduced to its
discriminating data: which framing fired and the rounded magnitude. -/
inductive GapOutput where
  | warning (points : ℤ)
  | positive (points : ℤ)
  | aligned
  | needMoreData
deriving DecidableEq, Repr

/-- The gap branch of `renderGenreSentimentComparison` (lines 1360-1381):
when both scores are finite, `delta = interestScore - enjoymentScore` and
`magnitude = Math.round(Math.abs(delta))`; `delta >= 8` frames a warning,
`delta <= -8` frames a positive, anything between is aligned; otherwise
the no-data copy is shown.  JS `Math.round` (half toward `+∞`) is
Mathlib's `round`. -/
def renderGenreGap (interestScore enjoymentScore : Option JSNum) : GapOutput :=
  match interestScore, enjoymentScore with
  | some (.finite i), some (.finite e) =>
    let delta := i - e
    let magnitude := round |delta|
    if 8 ≤ delta then .warning magnitude
    else if delta ≤ -8 then .positive magnitude
    else .aligned
  | _, _ => .needMoreData

/-- C5: with both scores finite the framing is a function of
`delta = interest - enjoyment` alone — warning iff `delta ≥ 8`, positive
iff `delta ≤ -8`, aligned otherwise — and the displayed magnitude is the
rounded absolute delta; when either score is missing or non-finite no
numeric gap is produced. -/
theorem c5_gap_is_interest_minus_enjoyment :
    (∀ i e : ℚ,
        (8 ≤ i - e →
          renderGenreGap (some (.finite i)) (some (.finite e)) =
            .warning (round |i - e|))
        ∧ (i - e ≤ -8 →
          renderGenreGap (some (.finite i)) (some (.finite e)) =
            .positive (round |i - e|))
        ∧ (-8 < i - e → i - e < 8 →
          renderGenreGap (some (.finite i)) (some (.finite e)) = .aligned))
    ∧ (∀ a b : Option JSNum, jsOptIsFinite a = false ∨ jsOptIsFinite b = false →
        renderGenreGap a b = .needMoreData) := by
  constructor
  · intro i e
    refine ⟨?_, ?_, ?_⟩
    · intro h
      simp only [renderGenreGap, if_pos h]
    · intro h
      have hnot : ¬ (8 : ℚ) ≤ i - e := by linarith
      simp only [renderGenreGap, if_neg hnot, if_pos h]
    · intro h₁ h₂
      have hnot : ¬ (8 : ℚ) ≤ i - e := by linarith
      have hnot2 : ¬ i - e ≤ (-8 : ℚ) := by linarith
      simp only [renderGenreGap, if_neg hnot, if_neg hnot2]
  · intro a b hab
    rcases a with _ | a
    · rfl
    · rcases b with _ | b
      · cases a <;> rfl
      · cases a <;> cases b <;> first
          | rfl
          | (exfalso; rcases hab with h | h <;> simp [jsOptIsFinite] at h)

/-- Witness for C5 at concrete scores: interest 90 vs enjoyment 70 warns
with a 20-point gap, 50 vs 70 is a 20-point positive surprise, 80 vs 75
is aligned, and a `NaN` interest yields the no-data copy. -/
theorem c5_witness :
    renderGenreGap (some (.finite 90)) (some (.finite 70)) = .warning 20
    ∧ renderGenreGap (some (.finite 50)) (some (.finite 70)) = .positive 20
    ∧ renderGenreGap (some (.finite 80)) (some (.finite 75)) = .aligned
    ∧ renderGenreGap (some .nan) (some (.finite 70)) = .needMoreData := by
  have h₁ := (c5_gap_is_interest_minus_enjoyment.1 90 70).1 (by norm_num)
  have e₁ : round |(90 : ℚ) - 70| = 20 := by norm_num [round_eq]
  rw [e₁] at h₁
  have h₂ := (c5_gap_is_interest_minus_enjoyment.1 50 70).2.1 (by norm_num)
  have e₂ : round |(50 : ℚ) - 70| = 20 := by norm_num [round_eq]
  rw [e₂] at h₂
  have h₃ := (c5_gap_is_interest_minus_enjoyment.1 80 75).2.2
    (by norm_num) (by norm_num)
  have h₄ := c5_gap_is_interest_minus_enjoyment.2 (some .nan) (some (.finite 70))
    (Or.inl rfl)
  exact ⟨h₁, h₂, h₃, h₄⟩

/-- One timeline entry as the engagement consumers read it
(`total_minutes`, `average_sentiment`, `active_titles`, `label`). -/
structure TimelineEntry where
  label : String
  total_minutes : JSNum
  average_sentiment : JSNum
  active_titles : Nat
  period_start : String
deriving DecidableEq, Repr

/-- One callout as `renderEngagementCallouts` reads it. -/
structure Callout where
  type : String
  label : String
  percent_change : JSNum
  change_minutes : JSNum
  period_start : String
deriving DecidableEq, Repr

/-- The engagement summary object (`{timeline, callouts}`); the rendering
consumers receive it as `summary`, possibly `undefined`. -/
structure EngagementSummary where
  timeline : List TimelineEntry
  callouts : List Callout
deriving DecidableEq, Repr

/-- `Array.isArray(summary?.timeline) ? summary.timeline : []` (line 521). -/
def summaryTimeline : Option EngagementSummary → List TimelineEntry
  | some s => s.timeline
  | none => []

/-- `Array.isArray(summary?.callouts) ? summary.callouts : []` (line 723). -/
def summaryCallouts : Option EngagementSummary → List Callout
  | some s => s.callouts
  | none => []

/-- `Number(x) || 0`: `NaN` is falsy and becomes `0`; every other number
stays itself. -/
def jsNumberOr0 : JSNum → JSNum
  | .nan => .finite 0
  | v => v

/-- `Math.max` on two JS numbers: `NaN` is absorbing, otherwise the order
with `±Infinity` at the ends. -/
def jsMax2 : JSNum → JSNum → JSNum
  | .nan, _ => .nan
  | _, .nan => .nan
  | .inf, _ => .inf
  | _, .inf => .inf
  | .neginf, b => b
  | a, .neginf => a
  | .finite a, .finite b => .finite (max a b)

/-- `Math.max(...values)`: the fold starts from `Math.max()`'s identity
`-Infinity`. -/
def mathMaxList (values : List JSNum) : JSNum :=
  values.foldl jsMax2 .neginf

/-- What `renderEngagementTrend` (lines 511-534) leaves in the canvas,
reduced to its discriminating data. -/
inductive TrendOutput where
  | emptyTimeline
  | noPlaytime
  | chart (maxMinutes : ℚ)
deriving DecidableEq, Repr

/-- The branch structure of `renderEngagementTrend` (lines 521-534): an
empty timeline renders the empty-state copy; a timeline whose maximum
`Number(total_minutes) || 0` is non-finite or `≤ 0` renders the
no-playtime copy; otherwise the chart is built. -/
def renderEngagementTrend (summary : Option EngagementSummary) : TrendOutput :=
  let timeline := summaryTimeline summary
  if timeline.isEmpty then .emptyTimeline
  else
    let minutesValues := timeline.map (fun e => jsNumberOr0 e.total_minutes)
    match mathMaxList minutesValues with
    | .finite q => if q ≤ 0 then .noPlaytime else .chart q
    | _ => .noPlaytime

/-- What `renderEngagementCallouts` (lines 716-731) leaves in the
container: the placeholder, or cards for the first four callouts. -/
inductive CalloutsOutput where
  | placeholder
  | cards (rendered : List Callout)
deriving DecidableEq, Repr

/-- The branch structure of `renderEngagementCallouts` (lines 723-734): an
empty callout list renders the placeholder copy, otherwise
`callouts.slice(0, 4)` become cards. -/
def renderEngagementCallouts (summary : Option EngagementSummary) :
    CalloutsOutput :=
  let callouts := summaryCallouts summary
  if callouts.isEmpty then .placeholder
  else .cards (callouts.take 4)

/-- The per-stage statistics object read by `renderLifecycleSummary`
(`stage.stats`), with the fields its branches consult. -/
structure StageStatistics where
  count : Nat
  mean : JSNum
  median : JSNum
  p25 : JSNum
  p75 : JSNum
  p90 : JSNum
deriving DecidableEq, Repr

/-- One aging-backlog entry as rendered (lines 1630-1654). -/
structure AgingEntry where
  title : String
  days_waiting : JSNum
  purchase_date : JSVal
  added_date : JSVal
deriving DecidableEq, Repr

/-- The lifecycle summary object; each stage may be absent
(`summary?.purchase_to_start ?? {}` with `statistics ?? {}`). -/
structure LifecycleSummary where
  purchase_to_start : Option StageStatistics
  start_to_finish : Option StageStatistics
  purchase_to_finish : Option StageStatistics
  aging_backlog : List AgingEntry
deriving DecidableEq, Repr

/-- `(stage.stats?.count ?? 0)`. -/
def stageCount : Option StageStatistics → Nat
  | some stats => stats.count
  | none => 0

/-- The three stage counts in declaration order (lines 1495-1523). -/
def lifecycleStageCounts (summary : Option LifecycleSummary) : List Nat :=
  match summary with
  | some s => [stageCount s.purchase_to_start, stageCount s.start_to_finish,
               stageCount s.purchase_to_finish]
  | none => [0, 0, 0]

/-- What the durations table container receives (lines 1525-1531). -/
inductive DurationsOutput where
  | emptyCopy
  | table (counts : List Nat)
deriving DecidableEq, Repr

/-- The `hasSamples` branch of `renderLifecycleSummary` (lines 1525-1531):
`stages.some((stage) => (stage.stats?.count ?? 0) > 0)` decides between
the empty-state copy and the table. -/
def renderLifecycleDurations (summary : Option LifecycleSummary) :
    DurationsOutput :=
  let counts := lifecycleStageCounts summary
  if counts.any (fun c => 0 < c) then .table counts else .emptyCopy

/-- The value shown in a day cell: the no-data dash or a whole-day figure
(`Number(value.toFixed(0))`; JS `toFixed` rounds half toward `+∞`, which
is Mathlib's `round`). -/
inductive DaysOutput where
  | noData
  | days (n : ℤ)
deriving DecidableEq, Repr

/-- `formatDays(value, { decimals: 0 })` (lines 138-147), reduced to the
rendered numeric value: non-finite input gives the dash. -/
def formatDays0 : JSNum → DaysOutput
  | .finite q => .days (round q)
  | _ => .noData

/-- The clamp of lines 1639-1641:
`Number.isFinite(entry.days_waiting) ? Math.max(entry.days_waiting, 0) : entry.days_waiting`. -/
def agingWaitValue : JSNum → JSNum
  | .finite q => .finite (max q 0)
  | v => v

/-- The days cell of one aging-backlog row (lines 1638-1643). -/
def agingDaysCell (entry : AgingEntry) : DaysOutput :=
  formatDays0 (agingWaitValue entry.days_waiting)

/-- One rendered aging-backlog row (lines 1630-1654): title
(`entry.title || "Untitled"`), the clamped days cell, and the two date
cells. -/
structure AgingRow where
  titleCell : String
  daysCell : DaysOutput
deriving DecidableEq, Repr

/-- The aging-backlog table body (lines 1629-1654): one row per entry, in
input order, without modifying the entries. -/
def renderAgingRows (agingBacklog : List AgingEntry) : List AgingRow :=
  agingBacklog.map (fun entry =>
    { titleCell := if entry.title = "" then "Untitled" else entry.title,
      daysCell := agingDaysCell entry })

/-- The aging-backlog container output (lines 1606-1658). -/
inductive AgingOutput where
  | emptyCopy
  | rows (body : List AgingRow)
deriving DecidableEq, Repr

/-- The empty check of the aging-backlog table (lines 1609-1614). -/
def renderLifecycleAging (summary : Option LifecycleSummary) : AgingOutput :=
  let aging := match summary with
    | some s => s.aging_backlog
    | none => []
  if aging.isEmpty then .emptyCopy else .rows (renderAgingRows aging)

/-- One genre entry of the genre summary as `renderGenreInsights` ranks
it: the label plus the total-scope metrics its extractors read
(`share ?? 0`, `count ?? 0`, `average_elo ?? null`). -/
structure GenreAggregateEntry where
  genre : String
  share : Option JSNum
  count : Option JSNum
  average_elo : Option JSNum
deriving DecidableEq, Repr

/-- The genre summary object as `renderGenreInsights` reads it
(`summary?.genres`, `summary?.bucket_order`). -/
structure GenreSummary where
  genres : List GenreAggregateEntry
  bucket_order : List String
deriving DecidableEq, Repr

/-- What `renderGenreInsights` (lines 843-858) leaves in the canvas:
the empty-state copy, or the ranked chart over the genre entries. -/
inductive GenreInsightsOutput where
  | emptyCopy
  | chart (entries : List GenreAggregateEntry)
deriving DecidableEq, Repr

/-- The branch structure of `renderGenreInsights` (lines 853-858):
`Array.isArray(summary?.genres) ? summary.genres : []`, and an empty list
renders the empty-state copy before any metric work happens. -/
def renderGenreInsights (summary : Option GenreSummary) : GenreInsightsOutput :=
  let genres := match summary with
    | some s => s.genres
    | none => []
  if genres.isEmpty then .emptyCopy else .chart genres

/-- One genre entry of the sentiment summary as
`renderGenreSentimentComparison` reads it (`interest.interest_score`,
`sentiment.weighted_sentiment`, `sentiment.total_playtime_minutes`). -/
structure SentimentGenreEntry where
  genre : String
  interest_score : Option JSNum
  weighted_sentiment : Option JSNum
  total_playtime_minutes : JSNum
deriving DecidableEq, Repr

/-- The sentiment summary object (`{genres: [{genre, interest, sentiment}]}`). -/
structure SentimentSummary where
  genres : List SentimentGenreEntry
deriving DecidableEq, Repr

/-- What `renderGenreSentimentComparison` (lines 1288-1303) leaves in the
canvas: the empty-state copy, or one list item per genre carrying its gap
paragraph. -/
inductive SentimentCompareOutput where
  | emptyCopy
  | items (gaps : List GapOutput)
deriving DecidableEq, Repr

/-- The branch structure of `renderGenreSentimentComparison` (lines
1298-1303 and 1360-1381): `Array.isArray(summary?.genres) ? summary.genres
: []`, an empty list renders the empty-state copy, and otherwise each
genre entry gets a list item whose gap paragraph is `renderGenreGap` of
its two scores. -/
def renderGenreSentimentComparison (summary : Option SentimentSummary) :
    SentimentCompareOutput :=
  let genres := match summary with
    | some s => s.genres
    | none => []
  if genres.isEmpty then .emptyCopy
  else .items (genres.map (fun entry =>
    renderGenreGap entry.interest_score entry.weighted_sentiment))

/-- C7: empty input collections are never fatal — every rendering
consumer of the four summary objects produces its well-formed empty-state
output.  An absent or empty genre list renders the genre-insights empty
copy and the sentiment-comparison empty copy, an absent or empty timeline
renders the trend empty copy, an absent or empty callout list renders the
callouts placeholder, all-zero lifecycle sample counts render the
durations empty copy, and an empty aging backlog renders its empty
copy. -/
theorem c7_empty_collections_render_empty_states :
    renderGenreInsights none = .emptyCopy
    ∧ (∀ bo : List String,
        renderGenreInsights (some { genres := [], bucket_order := bo }) =
          .emptyCopy)
    ∧ renderGenreSentimentComparison none = .emptyCopy
    ∧ renderGenreSentimentComparison (some { genres := [] }) = .emptyCopy
    ∧ renderEngagementTrend none = .emptyTimeline
    ∧ (∀ cs : List Callout,
        renderEngagementTrend (some { timeline := [], callouts := cs }) =
          .emptyTimeline)
    ∧ renderEngagementCallouts none = .placeholder
    ∧ (∀ tl : List TimelineEntry,
        renderEngagementCallouts (some { timeline := tl, callouts := [] }) =
          .placeholder)
    ∧ renderLifecycleDurations none = .emptyCopy
    ∧ (∀ summary : Option LifecycleSummary,
        (∀ c ∈ lifecycleStageCounts summary, c = 0) →
          renderLifecycleDurations summary = .emptyCopy)
    ∧ renderLifecycleAging none = .emptyCopy
    ∧ (∀ (s₁ s₂ s₃ : Option StageStatistics),
        renderLifecycleAging
          (some { purchase_to_start := s₁, start_to_finish := s₂,
                  purchase_to_finish := s₃, aging_backlog := [] }) =
          .emptyCopy) := by
  refine ⟨rfl, fun bo => rfl, rfl, rfl, rfl, fun cs => rfl, rfl, fun tl => rfl,
    rfl, ?_, rfl, fun s₁ s₂ s₃ => rfl⟩
  intro summary hzero
  have hany : (lifecycleStageCounts summary).any (fun c => 0 < c) = false := by
    simp only [List.any_eq_false, decide_eq_true_eq]
    intro c hc
    simp [hzero c hc]
  simp only [renderLifecycleDurations, hany, Bool.false_eq_true, if_false]

/-- Witness for C7 at a concrete input: a lifecycle summary whose three
stages are present but have zero samples renders the durations empty
copy. -/
theorem c7_witness :
    renderLifecycleDurations
      (some { purchase_to_start :=
                some { count := 0, mean := .nan, median := .nan,
                       p25 := .nan, p75 := .nan, p90 := .nan },
              start_to_finish := none,
              purchase_to_finish := none,
              aging_backlog := [] }) = .emptyCopy := by
  exact c7_empty_collections_render_empty_states.2.2.2.2.2.2.2.2.2.1 _ (by decide)

/-- C8: the rendered days-waiting figure is the raw value clamped to at
least 0 when that value is finite; a non-finite value is passed through
unclamped and renders as the no-data dash; and the rows are built one per
entry in input order, leaving the entries (and hence the ordering the
server produced from the raw values) untouched. -/
theorem c8_days_waiting_clamped_for_display_only :
    (∀ (entry : AgingEntry) (q : ℚ), entry.days_waiting = .finite q →
        agingDaysCell entry = .days (round (max q 0)))
    ∧ (∀ entry : AgingEntry, jsIsFinite entry.days_waiting = false →
        agingDaysCell entry = .noData)
    ∧ (∀ backlog : List AgingEntry,
        (renderAgingRows backlog).length = backlog.length
        ∧ List.map AgingRow.daysCell (renderAgingRows backlog) =
            List.map agingDaysCell backlog) := by
  refine ⟨?_, ?_, ?_⟩
  · intro entry q hq
    simp [agingDaysCell, agingWaitValue, hq, formatDays0]
  · intro entry hfin
    cases hval : entry.days_waiting with
    | finite q => rw [hval] at hfin; simp [jsIsFinite] at hfin
    | nan => simp [agingDaysCell, agingWaitValue, hval, formatDays0]
    | inf => simp [agingDaysCell, agingWaitValue, hval, formatDays0]
    | neginf => simp [agingDaysCell, agingWaitValue, hval, formatDays0]
  · intro backlog
    constructor
    · simp [renderAgingRows]
    · simp [renderAgingRows]

/-- Witness for C8 at concrete entries: a raw value of `-3` days renders
as `0 days` (clamped), `12.4` days rounds to `12`, and `NaN` renders the
dash. -/
theorem c8_witness :
    agingDaysCell { title := "A", days_waiting := .finite (-3),
                    purchase_date := .jsNull, added_date := .jsNull } = .days 0
    ∧ agingDaysCell { title := "B", days_waiting := .finite (62/5),
                      purchase_date := .jsNull, added_date := .jsNull } = .days 12
    ∧ agingDaysCell { title := "C", days_waiting := .nan,
                      purchase_date := .jsNull, added_date := .jsNull } = .noData := by
  have h₁ := c8_days_waiting_clamped_for_display_only.1
    { title := "A", days_waiting := .finite (-3),
      purchase_date := .jsNull, added_date := .jsNull } (-3) rfl
  have e₁ : round (max (-3 : ℚ) 0) = 0 := by norm_num [round_eq]
  rw [e₁] at h₁
  have h₂ := c8_days_waiting_clamped_for_display_only.1
    { title := "B", days_waiting := .finite (62/5),
      purchase_date := .jsNull, added_date := .jsNull } (62/5) rfl
  have e₂ : round (max (62/5 : ℚ) 0) = 12 := by
    rw [max_eq_left (by norm_num)]
    norm_num [round_eq]
  rw [e₂] at h₂
  have h₃ := c8_days_waiting_clamped_for_display_only.2.1
    { title := "C", days_waiting := .nan,
      purchase_date := .jsNull, added_date := .jsNull } rfl
  exact ⟨h₁, h₂, h₃⟩

/-- Modelled from the spec: the server-side Genre Aggregator (spec §4.2)
is not under `src/` — only its rendering consumers are — so its weight
accumulation is modelled from the spec's words: "For each game with a
non-empty genre set, each genre tag receives weight `1` (not
`1/genreCount`)".  A game is a title, a status and its genre tags. -/
structure SpecGame where
  title : String
  status : String
  genres : List String
deriving DecidableEq, Repr

/-- Modelled from the spec: add weight `1` for one genre tag to the
accumulated per-genre entries (association list in first-appearance
order). -/
def bumpGenre : List (String × ℚ) → String → List (String × ℚ)
  | [], genre => [(genre, 1)]
  | (g, w) :: rest, genre =>
    if g = genre then (g, w + 1) :: rest
    else (g, w) :: bumpGenre rest genre

/-- Modelled from the spec: scan all games and accumulate weight `1` per
genre tag per game (spec §4.2); games with an empty genre set contribute
nothing. -/
def aggregateGenres (games : List SpecGame) : List (String × ℚ) :=
  games.foldl (fun acc game => game.genres.foldl bumpGenre acc) []

/-- `sum(genre.total.weight for all genres)`. -/
def totalGenreWeight (entries : List (String × ℚ)) : ℚ :=
  (entries.map Prod.snd).sum

/-- The weight accumulated for one particular genre label. -/
def genreWeightOf (entries : List (String × ℚ)) (genre : String) : ℚ :=
  ((entries.filter (fun e => e.1 = genre)).map Prod.snd).sum

theorem totalGenreWeight_bump (acc : List (String × ℚ)) (genre : String) :
    totalGenreWeight (bumpGenre acc genre) = totalGenreWeight acc + 1 := by
  induction acc with
  | nil => simp [bumpGenre, totalGenreWeight]
  | cons p rest ih =>
    obtain ⟨g, w⟩ := p
    by_cases hg : g = genre
    · simp [bumpGenre, hg, totalGenreWeight]
      ring
    · simp only [bumpGenre, if_neg hg, totalGenreWeight, List.map_cons,
        List.sum_cons] at ih ⊢
      rw [ih]
      ring

theorem genreWeightOf_cons (g : String) (w : ℚ) (rest : List (String × ℚ))
    (genre : String) :
    genreWeightOf ((g, w) :: rest) genre =
      (if g = genre then w else 0) + genreWeightOf rest genre := by
  by_cases hg : g = genre <;> simp [genreWeightOf, List.filter_cons, hg]

theorem genreWeightOf_bump (acc : List (String × ℚ)) (tag genre : String) :
    genreWeightOf (bumpGenre acc tag) genre =
      genreWeightOf acc genre + (if tag = genre then 1 else 0) := by
  induction acc with
  | nil =>
    show genreWeightOf [(tag, 1)] genre = _
    rw [genreWeightOf_cons]
    by_cases htag : tag = genre <;> simp [genreWeightOf, htag]
  | cons p rest ih =>
    obtain ⟨g, w⟩ := p
    by_cases hg : g = tag
    · subst hg
      have hb : bumpGenre ((g, w) :: rest) g = (g, w + 1) :: rest := by
        simp [bumpGenre]
      rw [hb, genreWeightOf_cons, genreWeightOf_cons]
      by_cases hgen : g = genre <;> simp [hgen] <;> ring
    · have hb : bumpGenre ((g, w) :: rest) tag = (g, w) :: bumpGenre rest tag := by
        simp [bumpGenre, hg]
      rw [hb, genreWeightOf_cons, genreWeightOf_cons, ih]
      ring

theorem totalGenreWeight_foldl_genres (genres : List String)
    (acc : List (String × ℚ)) :
    totalGenreWeight (genres.foldl bumpGenre acc) =
      totalGenreWeight acc + genres.length := by
  induction genres generalizing acc with
  | nil => simp
  | cons g gs ih =>
    rw [List.foldl_cons, ih (bumpGenre acc g), totalGenreWeight_bump]
    simp only [List.length_cons]
    push_cast
    ring

theorem genreWeightOf_foldl_genres (genres : List String) (genre : String)
    (acc : List (String × ℚ)) :
    genreWeightOf (genres.foldl bumpGenre acc) genre =
      genreWeightOf acc genre + genres.count genre := by
  induction genres generalizing acc with
  | nil => simp
  | cons g gs ih =>
    rw [List.foldl_cons, ih (bumpGenre acc g), genreWeightOf_bump]
    by_cases hg : g = genre
    · simp only [hg, if_pos rfl, List.count_cons, beq_self_eq_true, if_true]
      push_cast
      ring
    · have hbeq : (genre == g) = false := by
        simpa [beq_iff_eq] using fun h => hg h.symm
      simp [List.count_cons, hbeq, hg]

theorem totalGenreWeight_foldl_games (games : List SpecGame)
    (acc : List (String × ℚ)) :
    totalGenreWeight
        (games.foldl (fun acc game => game.genres.foldl bumpGenre acc) acc) =
      totalGenreWeight acc +
        (games.map (fun game => (game.genres.length : ℚ))).sum := by
  induction games generalizing acc with
  | nil => simp
  | cons game rest ih =>
    rw [List.foldl_cons, ih, totalGenreWeight_foldl_genres]
    simp only [List.map_cons, List.sum_cons]
    ring

theorem genreWeightOf_foldl_games (games : List SpecGame) (genre : String)
    (acc : List (String × ℚ)) :
    genreWeightOf
        (games.foldl (fun acc game => game.genres.foldl bumpGenre acc) acc)
        genre =
      genreWeightOf acc genre +
        (games.map (fun game => (game.genres.count genre : ℚ))).sum := by
  induction games generalizing acc with
  | nil => simp
  | cons game rest ih =>
    rw [List.foldl_cons, ih, genreWeightOf_foldl_genres]
    simp only [List.map_cons, List.sum_cons]
    ring

theorem sum_genre_lengths_filter_nonempty (games : List SpecGame) :
    (games.map (fun game => (game.genres.length : ℚ))).sum =
      ((games.filter (fun game => !game.genres.isEmpty)).map
        (fun game => (game.genres.length : ℚ))).sum := by
  induction games with
  | nil => simp
  | cons game rest ih =>
    by_cases hempty : game.genres.isEmpty
    · have hlen : game.genres.length = 0 := by
        simpa [List.isEmpty_iff_length_eq_zero] using hempty
      simp [List.filter_cons, hempty, hlen, ih]
    · simp [List.filter_cons, hempty, ih]

/-- C9 (spec-modelled): weight conservation of the genre aggregation.
Each genre tag of each game receives weight exactly `1` — the weight
accumulated for any one genre is the number of that genre's tags across
all games — so the sum of `total.weight` across genre entries equals the
total number of genre tags, summed equivalently over all games or over
just the games with at least one genre; multi-genre games therefore
contribute fully to every one of their genres. -/
theorem c9_genre_weight_conservation :
    (∀ games : List SpecGame,
        totalGenreWeight (aggregateGenres games) =
          (games.map (fun game => (game.genres.length : ℚ))).sum)
    ∧ (∀ games : List SpecGame,
        totalGenreWeight (aggregateGenres games) =
          ((games.filter (fun game => !game.genres.isEmpty)).map
            (fun game => (game.genres.length : ℚ))).sum)
    ∧ (∀ (games : List SpecGame) (genre : String),
        genreWeightOf (aggregateGenres games) genre =
          (games.map (fun game => (game.genres.count genre : ℚ))).sum) := by
  refine ⟨?_, ?_, ?_⟩
  · intro games
    simpa [totalGenreWeight] using totalGenreWeight_foldl_games games []
  · intro games
    have h := totalGenreWeight_foldl_games games []
    rw [aggregateGenres, h, ← sum_genre_lengths_filter_nonempty]
    simp [totalGenreWeight]
  · intro games genre
    simpa [genreWeightOf] using genreWeightOf_foldl_games games genre []

/-- A parsed JSON response body as `fetchJSON` consults it: the optional
`error` field (a string; an empty string is falsy) and an opaque payload
distinguishing bodies. -/
structure JsonBody where
  error : Option String
  payload : Nat
deriving DecidableEq, Repr

/-- An HTTP response as `fetchJSON` consults it: the `ok` flag, the
`statusText`, and the result of `response.json()` — `none` when the body
does not parse as JSON (in which case `response.json()` rejects). -/
structure HttpResponse where
  ok : Bool
  statusText : String
  body : Option JsonBody
deriving DecidableEq, Repr

/-- The rejection reason of `response.json()` on an unparseable body (the
exact text is runtime-supplied; only its occurrence matters here). -/
def JSON_PARSE_ERROR : String := "SyntaxError: JSON parse error"

/-- `fetchJSON` (src/app/static/app.js lines 100-113).  On a non-ok
response: `message = statusText || "Request failed"`, then the parsed
body's truthy `error` field overrides it (a parse failure is swallowed),
and an `Error(message)` is thrown.  On an ok response the result of
`response.json()` is returned — which itself rejects when the body is not
JSON. -/
def fetchJSON (r : HttpResponse) : Except String JsonBody :=
  if r.ok then
    match r.body with
    | some data => .ok data
    | none => .error JSON_PARSE_ERROR
  else
    let fallback := if r.statusText = "" then "Request failed" else r.statusText
    let message := match r.body with
      | some data =>
        match data.error with
        | some e => if e = "" then fallback else e
        | none => fallback
      | none => fallback
    .error message

/-- Counterexample to C10 as stated: the concrete ok response whose body
is not valid JSON makes `fetchJSON` reject (via `response.json()`), so
"raises if and only if the HTTP response is not ok" fails in the
only-if direction. -/
theorem c10_counterexample :
    (fetchJSON { ok := true, statusText := "OK", body := none }).isOk = false
    ∧ ({ ok := true, statusText := "OK", body := none } : HttpResponse).ok = true := by
  exact ⟨rfl, rfl⟩

/-- C10 as amended: `fetchJSON` raises exactly when the response is not ok
or its body does not parse as JSON.  On a non-ok response the error
message is the parsed body's non-empty `error` field when there is one,
otherwise the `statusText`, falling back to `"Request failed"` when that
is empty; an ok response with a parseable body resolves with the parsed
body and throws nothing; an ok response with an unparseable body rejects
with the JSON parse error. -/
theorem c10_fetchJSON_raise_conditions :
    (∀ r : HttpResponse,
        ((fetchJSON r).isOk = true ↔ (r.ok = true ∧ r.body ≠ none)))
    ∧ (∀ (r : HttpResponse) (d : JsonBody), r.ok = true → r.body = some d →
        fetchJSON r = .ok d)
    ∧ (∀ r : HttpResponse, r.ok = true → r.body = none →
        fetchJSON r = .error JSON_PARSE_ERROR)
    ∧ (∀ (r : HttpResponse) (d : JsonBody) (e : String),
        r.ok = false → r.body = some d → d.error = some e → e ≠ "" →
          fetchJSON r = .error e)
    ∧ (∀ r : HttpResponse, r.ok = false →
        (r.body = none ∨ ∃ d, r.body = some d ∧ (d.error = none ∨ d.error = some "")) →
          fetchJSON r =
            .error (if r.statusText = "" then "Request failed" else r.statusText)) := by
  refine ⟨?_, ?_, ?_, ?_, ?_⟩
  · intro r
    obtain ⟨ok, st, body⟩ := r
    cases ok
    · constructor
      · intro h
        exfalso
        rcases body with _ | d
        · simp [fetchJSON, Except.isOk, Except.toBool] at h
        · rcases d.error with _ | e
          · simp [fetchJSON, Except.isOk, Except.toBool] at h
          · by_cases he : e = "" <;>
              simp [fetchJSON, he, Except.isOk, Except.toBool] at h
      · rintro ⟨h, -⟩
        simp at h
    · rcases body with _ | d
      · simp [fetchJSON, Except.isOk, Except.toBool]
      · simp [fetchJSON, Except.isOk, Except.toBool]
  · intro r d hok hbody
    simp [fetchJSON, hok, hbody]
  · intro r hok hbody
    simp [fetchJSON, hok, hbody]
  · intro r d e hok hbody herr hne
    simp [fetchJSON, hok, hbody, herr, hne]
  · intro r hok hcase
    rcases hcase with hnone | ⟨d, hbody, herr⟩
    · simp [fetchJSON, hok, hnone]
    · rcases herr with herr | herr <;> simp [fetchJSON, hok, hbody, herr]

/-- Witness for the amended C10 at concrete responses: a 400 whose body
carries `error: "boom"` throws `"boom"`; a 500 with empty statusText and
no parseable body throws `"Request failed"`; a 200 with a parseable body
resolves with it. -/
theorem c10_witness :
    fetchJSON { ok := false, statusText := "Bad Request",
                body := some { error := some "boom", payload := 7 } } =
      .error "boom"
    ∧ fetchJSON { ok := false, statusText := "", body := none } =
        .error "Request failed"
    ∧ fetchJSON { ok := true, statusText := "OK",
                  body := some { error := none, payload := 3 } } =
        .ok { error := none, payload := 3 } := by
  refine ⟨?_, ?_, ?_⟩
  · exact c10_fetchJSON_raise_conditions.2.2.2.1
      { ok := false, statusText := "Bad Request",
        body := some { error := some "boom", payload := 7 } }
      { error := some "boom", payload := 7 } "boom" rfl rfl rfl (by decide)
  · have h := c10_fetchJSON_raise_conditions.2.2.2.2
      { ok := false, statusText := "", body := none } rfl (Or.inl rfl)
    simpa using h
  · exact c10_fetchJSON_raise_conditions.2.1
      { ok := true, statusText := "OK",
        body := some { error := none, payload := 3 } }
      { error := none, payload := 3 } rfl rfl
